import Mathlib

set_option maxRecDepth 100000

/-!
Verification development for `boa_extract_grants_xml.py`, a one-shot
extractor of grant records (recipient, amount) from IRS Form 990 XML
filings.  The Python source is shallowly embedded below:

* XML documents become the inductive tree `XNode` (local name, text,
  tail text, children), mirroring lxml's element model; `itertext()`
  becomes `itext`, descendant search in document order becomes
  `descendantsOf`, and document-wide search becomes `allElements`.
* Python `float(...)` applied to the cleaned numeral strings (whose
  alphabet is only digits, `.` and `-`) becomes `pyFloatChars?`,
  producing an exact rational for in-range numerals and `PyVal.pinf` /
  `PyVal.ninf` at or above the IEEE-double overflow threshold, exactly
  as CPython's string-to-double conversion does (`float("1e400")` is
  `inf`, not an exception); `ValueError` becomes `none`.  Rounding of
  in-range decimals to binary is not modelled; no claim depends on it.
* `clean_amount_to_float`, `first_text_for_tags`, `extract_grants` and
  the exit logic of `main` are translated line by line; the string
  operations are carried out on character lists so that every
  definition evaluates inside the kernel.
-/

/-! ## Python string helpers -/

/-- Whitespace characters stripped by Python's `str.strip()`. -/
def pySpaceChars : List Char :=
  [' ', '\t', '\n', '\r', '\x0b', '\x0c',
   '\u001c', '\u001d', '\u001e', '\u001f', '\u0085', ' ',
   ' ', ' ', ' ', ' ', ' ', ' ', ' ',
   ' ', ' ', ' ', ' ', ' ', ' ', ' ',
   ' ', ' ', '　']

def pyIsSpace (c : Char) : Bool := pySpaceChars.contains c

/-- Python `s.strip()` on a character list. -/
def pyStripChars (l : List Char) : List Char :=
  ((l.dropWhile pyIsSpace).reverse.dropWhile pyIsSpace).reverse

/-- Python `s.strip()`. -/
def pyStrip (s : String) : String := String.mk (pyStripChars s.toList)

/-- ASCII lowering of one character; this is what both `str.lower()`
and the XPath `translate(·, 'A..Z', 'a..z')` of the source do on the
ASCII tag names and recipient tests they are applied to. -/
def asciiLowerChar (c : Char) : Char :=
  if 'A' ≤ c ∧ c ≤ 'Z' then Char.ofNat (c.toNat + 32) else c

/-- Python `s.lower()` (ASCII fragment). -/
def pyLower (s : String) : String := String.mk (s.toList.map asciiLowerChar)

/-- `a` is a leading segment of `b` (on character lists). -/
def isPre : List Char → List Char → Bool
  | [], _ => true
  | _ :: _, [] => false
  | a :: as, b :: bs => a == b && isPre as bs

/-- Python's `needle in hay` substring test. -/
def strContains (hay needle : String) : Bool :=
  (List.range (hay.toList.length + 1)).any fun i =>
    isPre needle.toList (hay.toList.drop i)

/-- Python `s.replace(a, "")` for a one-character pattern. -/
def removeAllChar (c : Char) (l : List Char) : List Char :=
  l.filter fun a => a != c

/-- Python `s.replace(a, b)` for one-character pattern and replacement. -/
def replaceAllChar (a b : Char) (l : List Char) : List Char :=
  l.map fun c => if c == a then b else c

/-! ## Python `float` on cleaned numerals -/

/-- The value domain of Python `float`: finite doubles embedded as
exact rationals, the two infinities, and NaN. -/
inductive PyVal where
  | fin (q : ℚ)
  | pinf
  | ninf
  | nan
  deriving DecidableEq, Repr

/-- Numeric value of a digit list, most significant first. -/
def digitsToNat (l : List Char) : Nat :=
  l.foldl (fun a c => 10 * a + (c.toNat - 48)) 0

/-- Magnitude denoted by an unsigned decimal numeral over the alphabet
`{0..9, .}`: at most one point, at least one digit; `none` models
Python's `ValueError`.  The value of `d₁…dₘ.e₁…eₖ` is the exact
rational `d₁…dₘe₁…eₖ / 10^k`. -/
def parseUnsignedRat? (l : List Char) : Option ℚ :=
  if l.all (fun c => c.isDigit || c == '.') &&
     ((l.filter (· == '.')).length ≤ 1 : Bool) && l.any Char.isDigit then
    let intPart := l.takeWhile (· ≠ '.')
    let fracPart := (l.dropWhile (· ≠ '.')).drop 1
    some (mkRat (digitsToNat (intPart ++ fracPart)) (10 ^ fracPart.length))
  else
    none

/-- Smallest magnitude that CPython's string-to-double conversion
rounds to infinity (round-to-nearest-even overflow threshold of
binary64: the midpoint between the largest finite double and 2^1024). -/
def ovThresh : ℚ := mkRat (Int.ofNat (2 ^ 1024 - 2 ^ 970)) 1

/-- Attach a sign and apply double overflow: magnitudes at or above
`ovThresh` become the corresponding infinity, as `float("1e400")` does. -/
def mkPyFloat (neg : Bool) (q : ℚ) : PyVal :=
  if ovThresh ≤ q then (if neg then .ninf else .pinf)
  else .fin (if neg then -q else q)

/-- Python `float(s)` for `s` over the alphabet `{0..9, ., -}` (the
only strings the program ever passes to `float`): an optional leading
minus sign followed by an unsigned numeral.  `none` models
`ValueError`. -/
def pyFloatChars? (l : List Char) : Option PyVal :=
  match l with
  | '-' :: rest => (parseUnsignedRat? rest).map (mkPyFloat true)
  | l => (parseUnsignedRat? l).map (mkPyFloat false)

/-! ## `clean_amount_to_float` (source lines 46–60) -/

/-- Non-breaking space. -/
def nbspChar : Char := ' '

/-- The character class kept by `AMOUNT_CLEAN_RE = [^0-9\.\-]`
substitution: digits, the period and the minus sign (source line 34). -/
def amountKeepChar (c : Char) : Bool := c.isDigit || c == '.' || c == '-'

/-- The successive reassignments of `s` in `clean_amount_to_float`
(source lines 49–54), innermost first: strip, drop NBSP, drop commas,
replace `(` by `-`, drop `)`, and delete every remaining
non-`[0-9.-]` character. -/
def cleanedAmountChars (s : String) : List Char :=
  (removeAllChar ')' (replaceAllChar '(' '-'
    (removeAllChar ',' (removeAllChar nbspChar
      (pyStripChars s.toList))))).filter amountKeepChar

/-- `clean_amount_to_float(s)` (source lines 46–60): clean the string,
return `None` when nothing is left, and otherwise parse it as a float;
every failure yields `none`, never an exception. -/
def clean_amount_to_float : Option String → Option PyVal
  | none => none
  | some s0 =>
    if (cleanedAmountChars s0).isEmpty then none
    else pyFloatChars? (cleanedAmountChars s0)


/-! ## XML element model (lxml fragment used by the source) -/

/-- An XML element as lxml exposes it to the source: a namespace-free
local tag name, the text before the first child, the tail text that
follows the element inside its parent, and the child elements in
document order. -/
inductive XNode where
  | mk (localName : String) (text : String) (tail : String)
       (children : List XNode)

def XNode.localName : XNode → String
  | .mk n _ _ _ => n

def XNode.text : XNode → String
  | .mk _ t _ _ => t

def XNode.tail : XNode → String
  | .mk _ _ t _ => t

def XNode.children : XNode → List XNode
  | .mk _ _ _ cs => cs

mutual

/-- The proper descendants of an element in document order: the node
set of the XPath `.//*` relative to it. -/
def descendantsOf : XNode → List XNode
  | .mk _ _ _ cs => descendantsOfList cs

def descendantsOfList : List XNode → List XNode
  | [] => []
  | c :: cs => c :: (descendantsOf c ++ descendantsOfList cs)

end

mutual

/-- `''.join(e.itertext())`: the element's own text followed by each
child's `itertext()` and tail, in document order. -/
def itext : XNode → String
  | .mk _ t _ cs => t ++ itextList cs

def itextList : List XNode → String
  | [] => ""
  | c :: cs => itext c ++ c.tail ++ itextList cs

end

/-- The node set of the absolute XPath `//*` on a document with root
element `root`: every element of the document, in document order. -/
def allElements (root : XNode) : List XNode :=
  root :: descendantsOf root

/-- `root.xpath("//*[local-name() = t]")`: all elements of the
document, at any depth and in any namespace, whose local name is `t`,
in document order. -/
def xpathByLocalName (root : XNode) (t : String) : List XNode :=
  (allElements root).filter fun e => e.localName == t

/-! ## Field extraction (source lines 36–44) -/

def NAME_TAG_CANDIDATES : List String :=
  ["BusinessNameLine1Txt", "BusinessNameLine1", "BusinessName",
   "RecipientBusinessName"]

def AMOUNT_TAG_CANDIDATES : List String :=
  ["Amt", "Amount", "GrantAmount", "ContributionAmt",
   "ContributionAmount"]

/-- The body of the inner loop of `first_text_for_tags`: the joined,
stripped text of an element when it is non-empty, else `none`. -/
def nonEmptyStripped (e : XNode) : Option String :=
  if pyStrip (itext e) == "" then none else some (pyStrip (itext e))

/-- The inner loop of `first_text_for_tags` for one candidate tag:
walk the descendants of `node` carrying that local name in document
order and return the first whose joined, stripped text is non-empty. -/
def firstTextForTag (node : XNode) (tag : String) : Option String :=
  ((descendantsOf node).filter fun e => e.localName == tag).findSome?
    nonEmptyStripped

/-- `first_text_for_tags(node, tag_names)` (source lines 36–44): try
each candidate tag in list order; the first tag with a matching
descendant carrying non-empty stripped text wins. -/
def first_text_for_tags (node : XNode) (tags : List String) : Option String :=
  tags.findSome? (firstTextForTag node)

/-! ## `extract_grants` (source lines 62–93) -/

def GRANT_GROUP_TAG : String := "GrantOrContributionPdDurYrGrp"

/-- The debug-only fallback node set (source line 70): every element
whose ASCII-lowercased local name contains the substring `"grant"`. -/
def grantFallbackNodes (root : XNode) : List XNode :=
  (allElements root).filter fun e => strContains (pyLower e.localName) "grant"

/-- The grant-group node set of `extract_grants` (source lines 67–70):
the document-order matches of the fixed group tag; when that set is
empty **and** debug mode is on, the `"grant"`-substring fallback. -/
def grantNodes (root : XNode) (debug : Bool) : List XNode :=
  if (xpathByLocalName root GRANT_GROUP_TAG).isEmpty && debug then
    grantFallbackNodes root
  else
    xpathByLocalName root GRANT_GROUP_TAG

/-- One output row: `{"recipient": name, "amount": amt_val}`. -/
structure ExtractedRow where
  recipient : String
  amount : PyVal
  deriving DecidableEq, Repr

/-- The body of the per-group loop of `extract_grants` (source lines
76–92): extract both fields, skip on Python-falsy name or raw amount,
skip when the amount fails to normalize, skip recipients containing
`"total"` case-insensitively, and otherwise emit the row. -/
def groupRow (node : XNode) : Option ExtractedRow :=
  match first_text_for_tags node NAME_TAG_CANDIDATES,
        first_text_for_tags node AMOUNT_TAG_CANDIDATES with
  | some name, some amount_raw =>
    if name == "" || amount_raw == "" then none
    else
      match clean_amount_to_float (some amount_raw) with
      | none => none
      | some amt =>
        if strContains (pyLower name) "total" then none
        else some ⟨name, amt⟩
  | _, _ => none

/-- `extract_grants(xml_path, debug)` on an already-parsed document:
the per-group outcomes over the grant nodes, in document order. -/
def extract_grants (root : XNode) (debug : Bool) : List ExtractedRow :=
  (grantNodes root debug).filterMap groupRow

/-! ## Exit behaviour of `main` (source lines 95–111) -/

/-- Observable outcome of one run of `main` on a parseable document:
the exit status, the message printed to standard error, and the line
printed to standard output (debug diagnostics aside). -/
structure RunResult where
  exitCode : Nat
  stderrMsg : Option String
  stdoutMsg : Option String
  deriving DecidableEq, Repr

/-- `main` after argument parsing (source lines 102–111): extract the
rows; with zero rows print to standard error and exit 1, otherwise
write the CSV and print the one-line summary, exiting 0. -/
def main_run (root : XNode) (debug : Bool) (outPath : String) : RunResult :=
  if (extract_grants root debug).isEmpty then
    { exitCode := 1
      stderrMsg := some "No grants extracted (0 rows). Use --debug to see diagnostics."
      stdoutMsg := if debug then
          some "Try printing a small XML snippet around a GrantOrContributionPdDurYrGrp and paste here for adjustments."
        else none }
  else
    { exitCode := 0
      stderrMsg := none
      stdoutMsg := some ("Saved " ++ toString (extract_grants root debug).length
                          ++ " rows to " ++ outPath) }

/-! ## Concrete documents used as witnesses and counterexamples -/

/-- A well-formed grant group: recipient "Acme Corp", amount "500". -/
def grpAcme : XNode :=
  .mk "GrantOrContributionPdDurYrGrp" "" ""
    [.mk "BusinessNameLine1Txt" "Acme Corp" "" [],
     .mk "Amt" "500" "" []]

/-- A subtotal group whose recipient contains "Total". -/
def grpTotal : XNode :=
  .mk "GrantOrContributionPdDurYrGrp" "" ""
    [.mk "BusinessNameLine1Txt" "Total Grants" "" [],
     .mk "Amt" "900" "" []]

/-- A document with one ordinary grant group and one subtotal group. -/
def docA : XNode := .mk "Return" "" "" [grpAcme, grpTotal]

/-- A group in which an element of the second amount candidate tag
("Amount", text "7") precedes an element of the first candidate tag
("Amt", text "9") in document order. -/
def demoNode : XNode :=
  .mk "Grp" "" "" [.mk "Amount" "7" "" [], .mk "Amt" "9" "" []]

/-- A 401-digit amount string, 1 followed by 400 zeros: far above the
largest finite IEEE double, so Python `float` parses it to `inf`. -/
def bigAmt : String := String.mk ('1' :: List.replicate 400 '0')

/-- A document whose only grant group carries the 401-digit amount. -/
def bigDoc : XNode :=
  .mk "Return" "" ""
    [.mk "GrantOrContributionPdDurYrGrp" "" ""
      [.mk "BusinessNameLine1Txt" "Acme Corp" "" [],
       .mk "Amt" bigAmt "" []]]

/-- A document with no `GrantOrContributionPdDurYrGrp` element but one
element whose lowercased local name contains "grant", holding a
complete record: the debug-only fallback finds it. -/
def dbgDoc : XNode :=
  .mk "Return" "" ""
    [.mk "SpecialGrant" "" ""
      [.mk "BusinessNameLine1Txt" "Helper Org" "" [],
       .mk "Amt" "5" "" []]]

/-! ## Helper lemmas -/

theorem findSome_eq_find_bind {α β : Type} (f : α → Option β) :
    ∀ l : List α, l.findSome? f = (l.find? fun a => (f a).isSome).bind f := by
  intro l
  induction l with
  | nil => rfl
  | cons a l ih =>
    cases h : f a with
    | none => simp [List.findSome?, List.find?, h, ih]
    | some b => simp [List.findSome?, List.find?, h]

theorem nonEmptyStripped_eq_some {e : XNode} {t : String}
    (h : nonEmptyStripped e = some t) :
    t ≠ "" ∧ t = pyStrip (itext e) := by
  unfold nonEmptyStripped at h
  by_cases hs : (pyStrip (itext e) == "") = true
  · rw [if_pos hs] at h
    exact absurd h (by simp)
  · rw [if_neg hs] at h
    have ht : pyStrip (itext e) = t := by
      exact Option.some.inj h
    refine ⟨?_, ht.symm⟩
    intro hempty
    rw [ht, hempty] at hs
    exact hs (by decide)

theorem firstTextForTag_ne_empty {node : XNode} {tag t : String}
    (h : firstTextForTag node tag = some t) : t ≠ "" := by
  unfold firstTextForTag at h
  obtain ⟨e, -, he⟩ := List.exists_of_findSome?_eq_some h
  exact (nonEmptyStripped_eq_some he).1

theorem first_text_ne_empty {node : XNode} {tags : List String} {t : String}
    (h : first_text_for_tags node tags = some t) : t ≠ "" := by
  unfold first_text_for_tags at h
  obtain ⟨tag, -, htag⟩ := List.exists_of_findSome?_eq_some h
  exact firstTextForTag_ne_empty htag

theorem mkPyFloat_ne_nan (b : Bool) (q : ℚ) : mkPyFloat b q ≠ PyVal.nan := by
  intro h
  unfold mkPyFloat at h
  split at h
  · split at h <;> cases h
  · cases h

theorem pyFloatChars_ne_nan {l : List Char} {v : PyVal}
    (h : pyFloatChars? l = some v) : v ≠ PyVal.nan := by
  unfold pyFloatChars? at h
  split at h <;>
    · obtain ⟨q, -, hq⟩ := Option.map_eq_some'.mp h
      rw [← hq]
      exact mkPyFloat_ne_nan _ _

theorem clean_ne_nan {x : Option String} {v : PyVal}
    (h : clean_amount_to_float x = some v) : v ≠ PyVal.nan := by
  cases x with
  | none => cases h
  | some s =>
    simp only [clean_amount_to_float] at h
    split at h
    · cases h
    · exact pyFloatChars_ne_nan h

theorem groupRow_eq_some_iff (node : XNode) (r : ExtractedRow) :
    groupRow node = some r ↔
      ∃ name raw v,
        first_text_for_tags node NAME_TAG_CANDIDATES = some name ∧
        first_text_for_tags node AMOUNT_TAG_CANDIDATES = some raw ∧
        clean_amount_to_float (some raw) = some v ∧
        strContains (pyLower name) "total" = false ∧
        r = ⟨name, v⟩ := by
  constructor
  · intro h
    unfold groupRow at h
    cases hn : first_text_for_tags node NAME_TAG_CANDIDATES with
    | none => rw [hn] at h; simp at h
    | some name =>
      cases hm : first_text_for_tags node AMOUNT_TAG_CANDIDATES with
      | none => rw [hn, hm] at h; simp at h
      | some raw =>
        rw [hn, hm] at h
        simp only at h
        split at h
        · cases h
        · cases hc : clean_amount_to_float (some raw) with
          | none => rw [hc] at h; simp at h
          | some v =>
            rw [hc] at h
            simp only at h
            split at h
            · cases h
            · next htot =>
              refine ⟨name, raw, v, rfl, rfl, hc, ?_, (Option.some.inj h).symm⟩
              simpa using htot
  · rintro ⟨name, raw, v, h1, h2, h3, h4, rfl⟩
    have hname : (name == "") = false :=
      beq_eq_false_iff_ne.mpr (first_text_ne_empty h1)
    have hraw : (raw == "") = false :=
      beq_eq_false_iff_ne.mpr (first_text_ne_empty h2)
    unfold groupRow
    rw [h1, h2]
    simp [hname, hraw, h3, h4]

theorem mem_extract_grants {root : XNode} {debug : Bool} {r : ExtractedRow} :
    r ∈ extract_grants root debug ↔
      ∃ node, node ∈ grantNodes root debug ∧ groupRow node = some r :=
  List.mem_filterMap

theorem isPre_append (l m : List Char) : isPre l (l ++ m) = true := by
  induction l with
  | nil => rfl
  | cons a as ih => simp [isPre, ih]

theorem isPre_self (l : List Char) : isPre l l = true := by
  simpa using isPre_append l []

theorem toList_append (s t : String) : (s ++ t).toList = s.toList ++ t.toList :=
  String.data_append s t

theorem strContains_append_right (a b : String) :
    strContains (a ++ b) b = true := by
  unfold strContains
  rw [List.any_eq_true]
  refine ⟨a.toList.length, ?_, ?_⟩
  · rw [List.mem_range, toList_append, List.length_append]
    omega
  · rw [toList_append, List.drop_left]
    exact isPre_self _

theorem strContains_middle (a b c : String) :
    strContains (a ++ b ++ c) b = true := by
  unfold strContains
  rw [List.any_eq_true]
  refine ⟨a.toList.length, ?_, ?_⟩
  · rw [List.mem_range, toList_append, toList_append, List.length_append,
      List.length_append]
    omega
  · rw [toList_append, toList_append, List.append_assoc, List.drop_left]
    exact isPre_append _ _

/-! ## Claim theorems -/

/-- C1: the amount normalizer follows the spec's steps and examples:
`normalize("(1,234.56)") = -1234.56`, `normalize("$1,000") = 1000.0`,
`normalize("abc")`, `normalize("")` and absent input are absent, and a
malformed residual numeral (several periods or minus signs) yields
absent rather than an exception. -/
theorem normalize_examples :
    clean_amount_to_float none = none
    ∧ clean_amount_to_float (some "(1,234.56)") = some (PyVal.fin (-1234.56))
    ∧ clean_amount_to_float (some "$1,000") = some (PyVal.fin 1000)
    ∧ clean_amount_to_float (some "abc") = none
    ∧ clean_amount_to_float (some "") = none
    ∧ clean_amount_to_float (some "1.2.3") = none
    ∧ clean_amount_to_float (some "--5") = none
    ∧ clean_amount_to_float (some "12-34") = none := by
  have hq : mkRat (-123456) 100 = (-1234.56 : ℚ) := by
    rw [Rat.mkRat_eq_div]; norm_num
  refine ⟨rfl, ?_, by decide, by decide, by decide, by decide, by decide,
    by decide⟩
  have h : clean_amount_to_float (some "(1,234.56)")
      = some (PyVal.fin (mkRat (-123456) 100)) := by decide
  rw [h, hq]

/-- C2: the field extractor returns the text of the first candidate tag
in list order that has a matching descendant with non-empty stripped
text — the result is fully determined by which tags have a match, never
by document positions across tags — and a returned text is non-empty;
with no such candidate it returns absent. -/
theorem first_text_priority (node : XNode) (tags : List String) :
    first_text_for_tags node tags
      = (tags.find? fun tag => (firstTextForTag node tag).isSome).bind
          (firstTextForTag node)
    ∧ ∀ t, first_text_for_tags node tags = some t → t ≠ "" :=
  ⟨findSome_eq_find_bind (firstTextForTag node) tags,
   fun _ h => first_text_ne_empty h⟩

/-- C2 witness: on a group where an element of the second candidate tag
("Amount", text "7") precedes the element of the first candidate tag
("Amt", text "9") in document order, list priority still wins. -/
theorem first_text_priority_witness :
    first_text_for_tags demoNode AMOUNT_TAG_CANDIDATES
      = (AMOUNT_TAG_CANDIDATES.find? fun tag =>
          (firstTextForTag demoNode tag).isSome).bind
            (firstTextForTag demoNode)
    ∧ ("9" : String) ≠ "" :=
  ⟨(first_text_priority demoNode AMOUNT_TAG_CANDIDATES).1,
   (first_text_priority demoNode AMOUNT_TAG_CANDIDATES).2 "9" (by decide)⟩

/-- C3: no produced row's recipient contains "total" case-insensitively;
a group extracting such a recipient text contributes no row. -/
theorem total_rows_excluded (root : XNode) (debug : Bool)
    (r : ExtractedRow) (hr : r ∈ extract_grants root debug) :
    strContains (pyLower r.recipient) "total" = false := by
  obtain ⟨node, -, hn⟩ := mem_extract_grants.mp hr
  obtain ⟨name, raw, v, h1, h2, h3, h4, rfl⟩ :=
    (groupRow_eq_some_iff node r).mp hn
  exact h4

/-- C3 witness: the surviving row of `docA` (which also holds a "Total
Grants" group that is dropped) has no "total" in its recipient. -/
theorem total_rows_excluded_witness :
    strContains (pyLower (ExtractedRow.mk "Acme Corp" (PyVal.fin 500)).recipient)
      "total" = false :=
  total_rows_excluded docA false ⟨"Acme Corp", PyVal.fin 500⟩ (by
    have h : extract_grants docA false = [⟨"Acme Corp", PyVal.fin 500⟩] := by
      decide
    rw [h]
    exact List.mem_singleton.mpr rfl)

/-- C4: the output is the document-order concatenation of independent
per-group outcomes, and a group yields a row exactly when recipient and
amount extraction succeed, amount normalization succeeds, and the
recipient does not contain "total" case-insensitively. -/
theorem extract_rows_iff (root : XNode) (debug : Bool) :
    extract_grants root debug = (grantNodes root debug).filterMap groupRow
    ∧ ∀ node r, groupRow node = some r ↔
        ∃ name raw v,
          first_text_for_tags node NAME_TAG_CANDIDATES = some name ∧
          first_text_for_tags node AMOUNT_TAG_CANDIDATES = some raw ∧
          clean_amount_to_float (some raw) = some v ∧
          strContains (pyLower name) "total" = false ∧
          r = ⟨name, v⟩ :=
  ⟨rfl, groupRow_eq_some_iff⟩

/-- C4 witness: the well-formed group of `docA` yields its row via the
characterization. -/
theorem extract_rows_iff_witness :
    groupRow grpAcme = some ⟨"Acme Corp", PyVal.fin 500⟩ :=
  ((extract_rows_iff docA false).2 grpAcme ⟨"Acme Corp", PyVal.fin 500⟩).mpr
    ⟨"Acme Corp", "500", PyVal.fin 500, by decide, by decide, by decide,
     by decide, rfl⟩

/-- C5 counterexample: a document whose grant group carries a 401-digit
amount produces a row whose amount is positive infinity — Python
`float` overflows such numerals to `inf` — so not every produced row
has a finite amount. -/
theorem amount_overflow_counterexample :
    extract_grants bigDoc false = [⟨"Acme Corp", PyVal.pinf⟩] := by decide

/-- C5 amended: every produced row has a non-empty recipient and a
numeric (never-NaN) amount; the amount can be infinite when the cleaned
numeral is at or above the IEEE-double overflow threshold. -/
theorem rows_wellformed_amended (root : XNode) (debug : Bool)
    (r : ExtractedRow) (hr : r ∈ extract_grants root debug) :
    r.recipient ≠ "" ∧ r.amount ≠ PyVal.nan := by
  obtain ⟨node, -, hn⟩ := mem_extract_grants.mp hr
  obtain ⟨name, raw, v, h1, h2, h3, h4, rfl⟩ :=
    (groupRow_eq_some_iff node r).mp hn
  exact ⟨first_text_ne_empty h1, clean_ne_nan h3⟩

/-- C5 witness: the row produced from `docA` has a non-empty recipient
and a non-NaN amount. -/
theorem rows_wellformed_witness :
    (ExtractedRow.mk "Acme Corp" (PyVal.fin 500)).recipient ≠ ""
    ∧ (ExtractedRow.mk "Acme Corp" (PyVal.fin 500)).amount ≠ PyVal.nan :=
  rows_wellformed_amended docA false ⟨"Acme Corp", PyVal.fin 500⟩ (by
    have h : extract_grants docA false = [⟨"Acme Corp", PyVal.fin 500⟩] := by
      decide
    rw [h]
    exact List.mem_singleton.mpr rfl)

/-- C6 counterexample: the debug switch does not only add printing — on
a document with no `GrantOrContributionPdDurYrGrp` element but a
"grant"-named element holding a complete record, debug mode extracts a
row through the fallback search while normal mode extracts nothing. -/
theorem debug_flag_counterexample :
    extract_grants dbgDoc true ≠ extract_grants dbgDoc false := by decide

/-- C6 amended: the debug switch never changes the extracted rows when
the primary group search finds at least one node; when it finds none,
non-debug extraction returns no rows (only then may debug mode differ,
via the fallback search). -/
theorem debug_flag_noninterference_amended (root : XNode) :
    ((xpathByLocalName root GRANT_GROUP_TAG).isEmpty = false →
      extract_grants root true = extract_grants root false)
    ∧ ((xpathByLocalName root GRANT_GROUP_TAG).isEmpty = true →
      extract_grants root false = []) := by
  constructor
  · intro h
    simp [extract_grants, grantNodes, h]
  · intro h
    cases hl : xpathByLocalName root GRANT_GROUP_TAG with
    | nil => simp [extract_grants, grantNodes, hl]
    | cons a as => rw [hl] at h; simp at h

/-- C6 witness: on a document whose primary group search succeeds, the
debug switch does not change the extracted rows. -/
theorem debug_flag_noninterference_witness :
    extract_grants docA true = extract_grants docA false :=
  (debug_flag_noninterference_amended docA).1 (by decide)

/-- C7: the group locator returns every element of the document whose
local name equals the target, at any depth and in document order; the
"grant"-substring fallback runs only in debug mode and only when that
primary search is empty, never during normal extraction. -/
theorem grant_locator_spec (root : XNode) :
    grantNodes root false
      = (allElements root).filter (fun e => e.localName == GRANT_GROUP_TAG)
    ∧ ((xpathByLocalName root GRANT_GROUP_TAG).isEmpty = false →
        grantNodes root true
          = (allElements root).filter (fun e => e.localName == GRANT_GROUP_TAG))
    ∧ ((xpathByLocalName root GRANT_GROUP_TAG).isEmpty = true →
        grantNodes root true = grantFallbackNodes root) := by
  refine ⟨?_, fun h => ?_, fun h => ?_⟩
  · simp [grantNodes, xpathByLocalName]
  · have hg : grantNodes root true = xpathByLocalName root GRANT_GROUP_TAG := by
      unfold grantNodes
      rw [h]
      rfl
    exact hg
  · simp [grantNodes, h]

/-- C7 witness: on `docA` (whose primary search is non-empty) the
locator in debug mode still returns exactly the primary matches. -/
theorem grant_locator_witness :
    grantNodes docA true
      = (allElements docA).filter (fun e => e.localName == GRANT_GROUP_TAG) :=
  (grant_locator_spec docA).2.1 (by decide)

/-- C8: the run fails (exit 1, message on standard error) exactly when
zero rows survive, and otherwise exits 0 with a one-line summary that
contains the row count and the output path; per-row failures never
terminate the run, which always reaches one of these two outcomes. -/
theorem main_exit_spec (root : XNode) (debug : Bool) (p : String) :
    ((main_run root debug p).exitCode ≠ 0 ↔ extract_grants root debug = [])
    ∧ ((main_run root debug p).stderrMsg.isSome = true ↔
        extract_grants root debug = [])
    ∧ (extract_grants root debug ≠ [] →
        (main_run root debug p).exitCode = 0
        ∧ (main_run root debug p).stdoutMsg
            = some ("Saved " ++ toString (extract_grants root debug).length
                     ++ " rows to " ++ p)
        ∧ strContains ("Saved " ++ toString (extract_grants root debug).length
                        ++ " rows to " ++ p) p = true
        ∧ strContains ("Saved " ++ toString (extract_grants root debug).length
                        ++ " rows to " ++ p)
            (toString (extract_grants root debug).length) = true) := by
  cases hrows : extract_grants root debug with
  | nil =>
    exact ⟨by simp [main_run, hrows], by simp [main_run, hrows],
      fun hne => absurd rfl hne⟩
  | cons r rs =>
    refine ⟨by simp [main_run, hrows], by simp [main_run, hrows], fun hne => ?_⟩
    refine ⟨by simp [main_run, hrows], by simp [main_run, hrows], ?_, ?_⟩
    · exact strContains_append_right _ p
    · rw [String.append_assoc]
      exact strContains_middle _ _ _

/-- C8 witness: on `docA` one row survives, so the run exits 0 and its
summary line contains the output path. -/
theorem main_exit_witness :
    (main_run docA false "out.csv").exitCode = 0
    ∧ strContains ("Saved " ++ toString (extract_grants docA false).length
        ++ " rows to " ++ "out.csv") "out.csv" = true := by
  have h := (main_exit_spec docA false "out.csv").2.2 (by decide)
  exact ⟨h.1, h.2.2.1⟩

/-- C9: `clean_amount_to_float` is total: on every input (absent or any
string, including unbalanced parentheses, repeated minus signs, strings
with no digits, and overflowing numerals) it returns a float or absent
and never raises. -/
theorem clean_amount_never_raises :
    (∀ x : Option String,
      clean_amount_to_float x = none ∨ ∃ v, clean_amount_to_float x = some v)
    ∧ clean_amount_to_float (some "(5") = some (PyVal.fin (-5))
    ∧ clean_amount_to_float (some "--5") = none
    ∧ clean_amount_to_float (some "no digits") = none
    ∧ clean_amount_to_float (some bigAmt) = some PyVal.pinf := by
  refine ⟨fun x => ?_, by decide, by decide, by decide, by decide⟩
  cases h : clean_amount_to_float x with
  | none => exact Or.inl rfl
  | some v => exact Or.inr ⟨v, rfl⟩

/-- C10: the character stripping is global, not limited to leading
currency noise: digit runs separated by arbitrary text concatenate, so
`normalize("1 USD 2") = 12.0` and `normalize("1e5") = 15.0` rather than
absent or 100000.0. -/
theorem normalize_strips_globally :
    clean_amount_to_float (some "1 USD 2") = some (PyVal.fin 12)
    ∧ clean_amount_to_float (some "1e5") = some (PyVal.fin 15)
    ∧ clean_amount_to_float (some "1e5") ≠ some (PyVal.fin 100000)
    ∧ clean_amount_to_float (some "1 USD 2") ≠ none := by
  exact ⟨by decide, by decide, by decide, by decide⟩
